import Mathlib

/-!
# GreenTech Smart Plastic Scanner — verification of the detection loop

Shallow embedding of `src/App.js` (a React function component).

Modelling choices, all taken from the source:

* Component state (`useState` hooks `scannedItem`, `model`, `error`,
  `detectionInterval`) becomes fields of an explicit `AppState`.
* React closure semantics are modelled explicitly: a function defined in a
  render closes over the *snapshot* of the state variables of that render.
  In particular the interval callback `() => detectObjects()` created in
  `startDetection` (line 134) permanently captures the values of `model` and
  `detectionInterval` of the render in which the start click was handled —
  the value of `detectionInterval` *before* `setDetectionInterval(interval)`
  commits.  Each live interval is therefore modelled as a `Timer` record
  carrying its id together with these captured values.
* Refs (`videoRef`, `canvasRef`) are not snapshots: they always point at the
  currently mounted DOM node.  The `<video>` and `<canvas>` elements are
  mounted exactly when `!loading && !scannedItem` (lines 219-237), so with
  the model loaded mountedness is `scannedItem = none`; when they unmount the
  refs become null, the canvas content is destroyed and `srcObject` is gone.
  This is the `normalize` step applied after every event commits.
* Camera streams: `getUserMedia` yields a stream whose tracks are live;
  `stopCamera` (lines 197-201) stops the tracks of the stream currently
  attached to `videoRef.current.srcObject` only.  `liveStreams` lists the ids
  of streams that still have live tracks.
* The poll body (`detectObjects`, lines 142-168) is modelled atomically: a
  `tick` event carries the result of `model.detect` (`Except Unit (List Pred)`,
  the error case being a thrown detection error).  A separate small model
  (`PollLoop`, below) exposes the in-flight structure of the async poll for
  the non-reentrancy property.
* Scores (JS numbers) are modelled as rationals; the comparisons in the
  source (`pred.score > 0.7`) are exact at the values involved.
-/

namespace GreenTech

/-- One model output, `{class, score, bbox}` (source: predictions returned by
`model.detect`, used at lines 146-164 and 171-195).  The JS field `class` is a
Lean keyword, so it is named `cls` here. -/
structure Pred where
  cls : String
  score : ℚ
  bbox : ℚ × ℚ × ℚ × ℚ
deriving DecidableEq, Repr

/-- Source line 150: `const plasticItems = ["bottle", "cup"];` -/
def plasticItems : List String := ["bottle", "cup"]

/-- The predicate of source lines 151-153:
`(pred) => plasticItems.includes(pred.class) && pred.score > 0.7`. -/
def qualifies (p : Pred) : Bool :=
  decide (p.cls ∈ plasticItems) && decide (mkRat 7 10 < p.score)

/-- One link of the static project dictionary (source lines 20-31, 39-52).
`thumbnail` is derived from `url` by the external helper
`getYouTubeThumbnail` and is irrelevant to every claim, so it is kept as the
url it is derived from; `source` is absent on video links. -/
structure Link where
  type : String
  title : String
  url : String
  src : Option String
deriving DecidableEq, Repr

/-- One entry of the static project dictionary (source lines 16-55). -/
structure ProjectEntry where
  title : String
  links : List Link
deriving DecidableEq, Repr

/-- Source lines 15-56: the static `PROJECTS` dictionary.  A JS object lookup
on a missing key yields `undefined`; the App renders
`PROJECTS[scannedItem]?.map(...)` (line 242), so a missing key behaves as the
empty list. -/
def PROJECTS (label : String) : List ProjectEntry :=
  if label = "bottle" then
    [{ title := "♻️ Plastic Bottle Projects",
       links := [
         { type := "video", title := "Self-Watering Plant System",
           url := "https://youtu.be/9HIC__5x404", src := none },
         { type := "article", title := "25 Brilliant Bottle Recycling Ideas",
           url := "https://www.boredpanda.com/plastic-bottle-recycling-ideas/",
           src := some "Bored Panda" }] }]
  else if label = "cup" then
    [{ title := "🖊️ Cup Upcycling Ideas",
       links := [
         { type := "video", title := "DIY Pen Holder from Plastic Cups",
           url := "https://www.youtube.com/watch?v=5keP9lY5VII", src := none },
         { type := "article", title := "10 Creative Uses for Old Cups",
           url := "https://www.upcyclethat.com/plastic-cup-projects/",
           src := some "Upcycle That" }] }]
  else []

/-- A live `setInterval` timer.  `capturedInterval` and `capturedModel` are
the snapshots of the `detectionInterval` and `model` state variables captured
by the closure `() => detectObjects()` at the render in which the interval
was created (source line 134). -/
structure Timer where
  id : Nat
  capturedInterval : Option Nat
  capturedModel : Bool
deriving DecidableEq, Repr

/-- The component state after the model has loaded successfully
(`loading = false`, `model` set), together with the browser resources the
component manipulates. -/
structure AppState where
  /-- `useState` hook `scannedItem` (line 59). -/
  scannedItem : Option String
  /-- `useState` hook `error` (line 62); the surfaced message, if any. -/
  error : Option String
  /-- `useState` hook `detectionInterval` (line 63): committed value. -/
  detectionInterval : Option Nat
  /-- `useState` hook `model` (line 60): whether a model is loaded. -/
  modelLoaded : Bool
  /-- The intervals that are actually live in the browser. -/
  activeTimers : List Timer
  /-- Ids of camera streams whose tracks are still live. -/
  liveStreams : List Nat
  /-- `videoRef.current.srcObject`: the stream attached to the video. -/
  srcObject : Option Nat
  /-- The predictions currently drawn on the overlay canvas. -/
  canvasDrawn : List Pred
  /-- Fresh-id counter for streams and intervals. -/
  nextId : Nat
deriving DecidableEq, Repr

/-- The `<video>` element is mounted iff the start view is rendered
(lines 219-237): model loaded and no scanned item. -/
def videoMounted (s : AppState) : Bool := s.scannedItem.isNone

/-- The `<canvas>` element is mounted under the same condition (line 229). -/
def canvasMounted (s : AppState) : Bool := s.scannedItem.isNone

/-- The Start Detection button is in the start view (lines 231-236). -/
def startButtonMounted (s : AppState) : Bool := s.scannedItem.isNone

/-- The Scan Another Item button is in the results view (lines 283-288). -/
def resetButtonMounted (s : AppState) : Bool := s.scannedItem.isSome

/-- Source lines 197-201, `stopCamera`: stop every track of the stream
currently attached to `videoRef.current.srcObject`. -/
def stopCamera (s : AppState) : AppState :=
  match s.srcObject with
  | none => s
  | some i => { s with liveStreams := s.liveStreams.erase i }

/-- Source lines 171-195, `drawPredictions`: clear the canvas, then draw each
box and label of each prediction; the overlay afterwards shows exactly `preds`. -/
def drawPredictions (preds : List Pred) (s : AppState) : AppState :=
  { s with canvasDrawn := preds }

/-- Source lines 142-168, `detectObjects` — one complete poll.  `cm` and `ci`
are the `model` and `detectionInterval` snapshots captured by the closure of
the timer that fired; `res` is the outcome of `await model.detect(...)`
(`.error` = the detection capability threw; caught and logged at 165-167). -/
def detectObjects (cm : Bool) (ci : Option Nat)
    (res : Except Unit (List Pred)) (s : AppState) : AppState :=
  if !cm || !(videoMounted s) || !(canvasMounted s) then s
  else
    match res with
    | .error _ => s
    | .ok preds =>
      let s1 := drawPredictions preds s
      match preds.find? qualifies with
      | none => s1
      | some d =>
        let s2 := stopCamera { s1 with scannedItem := some d.cls }
        match ci with
        | none => s2
        | some j =>
          { s2 with activeTimers := s2.activeTimers.filter (fun t => t.id ≠ j),
                    detectionInterval := none }

/-- Source lines 121-139, `startDetection`.  `ok` is whether
`navigator.mediaDevices.getUserMedia({video:true})` succeeded; on failure the
catch block only sets the error message.  On success: attach the new stream
to the video (if mounted), clear the interval named by the *snapshot* of
`detectionInterval`, create a new interval whose callback captures the same
snapshot (and the `model` snapshot), and commit the new interval id. -/
def startDetection (ok : Bool) (s : AppState) : AppState :=
  if !ok then { s with error := some "Camera error" }
  else
    let streamId := s.nextId
    let s1 := { s with liveStreams := streamId :: s.liveStreams,
                       nextId := s.nextId + 1 }
    let s2 := if videoMounted s1 then { s1 with srcObject := some streamId } else s1
    let s3 :=
      match s.detectionInterval with
      | some j => { s2 with activeTimers := s2.activeTimers.filter (fun t => t.id ≠ j) }
      | none => s2
    let tid := s3.nextId
    { s3 with
        activeTimers :=
          { id := tid, capturedInterval := s.detectionInterval,
            capturedModel := s.modelLoaded } :: s3.activeTimers,
        detectionInterval := some tid,
        nextId := tid + 1 }

/-- Source lines 203-210, `resetScanner`: clear the scanned item; clear the
canvas if `canvasRef.current` is non-null (it is null in the results view,
where no canvas is mounted). -/
def resetScanner (s : AppState) : AppState :=
  let s1 := { s with scannedItem := none }
  if canvasMounted s then { s1 with canvasDrawn := [] } else s1

/-- External events driving the component, each handled to completion on the
single UI thread with React committing state updates before the next event:
a click on Start Detection (with the camera-acquisition outcome), a tick of
interval `id` (with the outcome of `model.detect`), a click on Scan Another
Item. -/
inductive Event where
  | clickStart (ok : Bool)
  | tick (id : Nat) (res : Except Unit (List Pred))
  | clickReset
deriving Repr

/-- Re-render commit: when the start view is not rendered the video and
canvas unmount, destroying the canvas content and the `srcObject` reference
(the refs become null; a later remount yields fresh, blank elements). -/
def normalize (s : AppState) : AppState :=
  if videoMounted s then s else { s with canvasDrawn := [], srcObject := none }

/-- Dispatch one event against the committed state: a click runs its handler
only if its button is mounted; a tick runs `detectObjects` with the snapshots
captured by the closure of that timer, and only if the timer is live. -/
def handle (e : Event) (s : AppState) : AppState :=
  match e with
  | .clickStart ok => if startButtonMounted s then startDetection ok s else s
  | .tick i res =>
    match s.activeTimers.find? (fun t => t.id = i) with
    | some t => detectObjects t.capturedModel t.capturedInterval res s
    | none => s
  | .clickReset => if resetButtonMounted s then resetScanner s else s

/-- One step: handle the event, then commit (re-render). -/
def step (e : Event) (s : AppState) : AppState := normalize (handle e s)

/-- State after a successful model load, before any interaction: the Idle
state of the state machine of the spec. -/
def initState : AppState :=
  { scannedItem := none, error := none, detectionInterval := none,
    modelLoaded := true, activeTimers := [], liveStreams := [],
    srcObject := none, canvasDrawn := [], nextId := 0 }

/-- Run a sequence of events from the Idle state. -/
def run (es : List Event) : AppState := es.foldl (fun s e => step e s) initState

/-!
## Poll concurrency model

`detectObjects` (lines 142-168) is an `async` function whose only early
return is `if (!model || !videoRef.current || !canvasRef.current) return;`
— there is no in-flight flag.  The interval callback (line 134) invokes it
at every tick, and the body `await`s `model.detect`, so nothing in the code
constrains a poll to finish before the next 500 ms tick fires.  `PollLoop`
tracks the number of polls that have passed the guard and not yet completed;
`pollTick` is a timer tick (the guard condition abstracted as `guardOk`),
`pollFinish` the completion of one in-flight poll.  Tick/finish ordering is
determined by real time, which the code does not constrain, so any
interleaving is admissible. -/

structure PollLoop where
  guardOk : Bool
  inFlight : Nat
deriving DecidableEq, Repr

/-- A 500 ms tick: the interval callback calls `detectObjects`; if the guard
passes, a new poll goes in flight — the source has no check that the
previous poll has completed. -/
def pollTick (s : PollLoop) : PollLoop :=
  if s.guardOk then { s with inFlight := s.inFlight + 1 } else s

/-- Completion of one in-flight poll (the `await`ed body returns). -/
def pollFinish (s : PollLoop) : PollLoop := { s with inFlight := s.inFlight - 1 }

/-!
## Concrete fixtures used by witnesses and counterexamples
-/

/-- A bottle detection at confidence 0.8. -/
def bottle08 : Pred := { cls := "bottle", score := mkRat 4 5, bbox := (0, 0, 10, 10) }

/-- A bottle detection at confidence 0.75 (spec scenario, section 8). -/
def bottle075 : Pred := { cls := "bottle", score := mkRat 3 4, bbox := (0, 0, 10, 10) }

/-- A chair detection at confidence 0.95 (spec scenario, section 8). -/
def chair095 : Pred := { cls := "chair", score := mkRat 19 20, bbox := (1, 1, 5, 5) }

/-- A cup detection at confidence 0.9. -/
def cup09 : Pred := { cls := "cup", score := mkRat 9 10, bbox := (2, 2, 4, 4) }

/-- Idle, then one successful start: the canonical Detecting state.  The
start click acquires stream 0 and schedules interval 1, whose closure
captured `detectionInterval = none`. -/
def detectingTrace : List Event := [.clickStart true, .tick 1 (.ok [bottle08])]

/-- One successful start only. -/
def startTrace : List Event := [.clickStart true]

/-- Start, start again, match on the second interval, reset, start again.
The closure of the second interval captured the id of the first interval, so the match
handler clears the dead first interval and commits `detectionInterval = null`
while the second interval is still live; the final start therefore sees
`null`, clears nothing, and schedules a third interval alongside it. -/
def twoTimerTrace : List Event :=
  [.clickStart true, .clickStart true, .tick 3 (.ok [bottle08]),
   .clickReset, .clickStart true]

/-!
## Helper lemmas
-/

/-- `Array.prototype.find`: on a list that is `l₁ ++ d :: l₂` where nothing
in `l₁` satisfies the predicate and `d` does, `find?` returns `d`. -/
lemma find?_append_first {α : Type} (q : α → Bool) (l₁ l₂ : List α) (d : α)
    (h₁ : ∀ p ∈ l₁, q p = false) (hd : q d = true) :
    (l₁ ++ d :: l₂).find? q = some d := by
  induction l₁ with
  | nil => simpa [List.find?] using List.find?_cons_of_pos l₂ hd
  | cons a l ih =>
    rw [List.cons_append, List.find?_cons_of_neg]
    · exact ih fun p hp => h₁ p (List.mem_cons_of_mem a hp)
    · simp [h₁ a (List.mem_cons_self a l)]

/-- In the results view (`scannedItem` set) the video and canvas are
unmounted, so the `detectObjects` run by a tick returns at its guard. -/
lemma handle_tick_matched (s : AppState) (l : String) (hl : s.scannedItem = some l)
    (i : Nat) (res : Except Unit (List Pred)) : handle (.tick i res) s = s := by
  simp only [handle]
  split
  · unfold detectObjects videoMounted
    simp [hl]
  · rfl

/-- A poll whose `model.detect` throws is caught at lines 165-167 and changes
nothing. -/
lemma handle_tick_error (s : AppState) (i : Nat) (e : Unit) :
    handle (.tick i (.error e)) s = s := by
  simp only [handle]
  split
  · unfold detectObjects
    split
    · rfl
    · rfl
  · rfl

/-!
## Claims
-/

/-- Claim C1.  A poll whose first entry is an allow-listed label above 0.7 records
the label, stops every camera track and switches to the results view — but
the polling interval is NOT cancelled: the closure of the interval callback
captured `detectionInterval = null` (the value before `setDetectionInterval`
committed), so the `if (detectionInterval)` at line 160 is skipped and the
interval created at line 134 stays active.  The clause "zero active timers" of the claim
is false on the code. -/
theorem c1_match_leaves_timer_active :
    (run detectingTrace).scannedItem = some "bottle" ∧
    (run detectingTrace).liveStreams = [] ∧
    resetButtonMounted (run detectingTrace) = true ∧
    (run detectingTrace).activeTimers =
      [{ id := 1, capturedInterval := none, capturedModel := true }] ∧
    (run detectingTrace).activeTimers ≠ [] := by decide

/-- Claim C3.  Once Matched (`scannedItem` set), the video and canvas are
unmounted, so every later poll — qualifying detections included — returns at
the guard of `detectObjects` (line 143) and changes nothing: the recorded
label stays and no match action re-runs. -/
theorem c3_matched_tick_noop (s : AppState) (l : String) (hn : normalize s = s)
    (hl : s.scannedItem = some l) (i : Nat) (res : Except Unit (List Pred)) :
    step (.tick i res) s = s := by
  unfold step
  rw [handle_tick_matched s l hl i res]
  exact hn

/-- Claim C3 witness: in the Matched state reached by a real session, a later poll
delivering another qualifying bottle detection is a no-op. -/
theorem c3_matched_tick_noop_witness :
    normalize (run detectingTrace) = run detectingTrace ∧
    (run detectingTrace).scannedItem = some "bottle" ∧
    step (.tick 1 (.ok [bottle08])) (run detectingTrace) = run detectingTrace :=
  ⟨by decide, by decide,
   c3_matched_tick_noop (run detectingTrace) "bottle" (by decide) (by decide)
     1 (.ok [bottle08])⟩

/-- Claim C4.  The at-most-one-timer invariant is false on the code: after start,
start, match, reset, start, two intervals are live.  The closure of the match handler
captured the id of the *first* interval, so it cleared a dead id and
committed `detectionInterval = null` while the second interval kept running;
the final `startDetection` saw `null` at line 129, cleared nothing, and
scheduled a third interval concurrently with the leaked one. -/
theorem c4_two_timers_reachable :
    (run twoTimerTrace).activeTimers.length = 2 ∧
    (run twoTimerTrace).activeTimers =
      [{ id := 5, capturedInterval := none, capturedModel := true },
       { id := 3, capturedInterval := some 1, capturedModel := true }] := by decide

/-- Claim C5 counterexample.  Two ticks with no completion in between leave two
polls in flight: `detectObjects` has no in-flight guard, so the claim that
"two polls are never in flight at the same time" is false on the code. -/
theorem c5_overlapping_polls :
    ¬ (pollTick (pollTick { guardOk := true, inFlight := 0 })).inFlight ≤ 1 := by
  decide

/-- Claim C5 amended: the code never skips a tick.  Whenever the guard of
`detectObjects` passes, a tick puts one more poll in flight, regardless of
how many are already in flight — overlap is avoided only if every poll
completes within the 500 ms cadence. -/
theorem c5_tick_never_skipped (s : PollLoop) (h : s.guardOk = true) :
    (pollTick s).inFlight = s.inFlight + 1 := by
  unfold pollTick
  rw [h]
  rfl

/-- Claim C5 amended, witness: with one poll already in flight, a tick starts a
second one. -/
theorem c5_tick_never_skipped_witness :
    ({ guardOk := true, inFlight := 1 } : PollLoop).guardOk = true ∧
    (pollTick { guardOk := true, inFlight := 1 }).inFlight = 1 + 1 :=
  ⟨by decide, c5_tick_never_skipped { guardOk := true, inFlight := 1 } (by decide)⟩

/-- Claim C7.  A poll in which the detection capability throws is caught at lines
165-167 (logged) and leaves the state exactly as it was: timers, camera
streams and scanned item untouched, so the loop continues. -/
theorem c7_poll_error_noop (s : AppState) (hn : normalize s = s) (i : Nat) :
    step (.tick i (.error ())) s = s := by
  unfold step
  rw [handle_tick_error]
  exact hn

/-- Claim C7 witness: in the Detecting state reached by a real start, a throwing
poll changes nothing. -/
theorem c7_poll_error_noop_witness :
    normalize (run startTrace) = run startTrace ∧
    step (.tick 1 (.error ())) (run startTrace) = run startTrace :=
  ⟨by decide, c7_poll_error_noop (run startTrace) (by decide) 1⟩

/-- A bottle detection at exactly the 0.7 threshold (boundary case). -/
def bottle07 : Pred := { cls := "bottle", score := mkRat 7 10, bbox := (0, 0, 10, 10) }

/-- On a prediction list where no entry satisfies `qualifies`,
`detectObjects` either returns at a guard or only redraws the overlay. -/
lemma detectObjects_no_qualify (cm : Bool) (ci : Option Nat) (preds : List Pred)
    (s : AppState) (hfind : preds.find? qualifies = none) :
    detectObjects cm ci (.ok preds) s = s ∨
    detectObjects cm ci (.ok preds) s = drawPredictions preds s := by
  unfold detectObjects
  split
  · exact Or.inl rfl
  · right
    simp [hfind]

/-- Claim C2.  If every allow-listed detection in the list has confidence at
most 0.7, the `find` at lines 151-153 matches nothing: the scanned item stays
unset, the camera streams stay as they were, and the interval keeps
running. -/
theorem c2_no_match_below_threshold (s : AppState) (i : Nat) (preds : List Pred)
    (hn : normalize s = s) (hs : s.scannedItem = none)
    (hp : ∀ p ∈ preds, p.cls ∈ plasticItems → p.score ≤ mkRat 7 10) :
    (step (.tick i (.ok preds)) s).scannedItem = none ∧
    (step (.tick i (.ok preds)) s).activeTimers = s.activeTimers ∧
    (step (.tick i (.ok preds)) s).liveStreams = s.liveStreams ∧
    (step (.tick i (.ok preds)) s).detectionInterval = s.detectionInterval := by
  have hq : ∀ p ∈ preds, qualifies p = false := by
    intro p hpmem
    unfold qualifies
    by_cases hmem : p.cls ∈ plasticItems
    · simp [hmem, not_lt.mpr (hp p hpmem hmem)]
    · simp [hmem]
  have hfind : preds.find? qualifies = none :=
    List.find?_eq_none.mpr fun x hx => by simp [hq x hx]
  have hmain : handle (.tick i (.ok preds)) s = s ∨
      handle (.tick i (.ok preds)) s = drawPredictions preds s := by
    simp only [handle]
    split
    · exact detectObjects_no_qualify _ _ preds s hfind
    · exact Or.inl rfl
  unfold step
  rcases hmain with h | h <;> rw [h]
  · rw [hn]
    exact ⟨hs, rfl, rfl, rfl⟩
  · unfold normalize drawPredictions videoMounted
    simp [hs]

/-- Claim C2 witness: a chair at 0.95 and a bottle at exactly 0.7 trigger
nothing (the scenario of the spec plus the boundary case). -/
theorem c2_no_match_below_threshold_witness :
    normalize (run startTrace) = run startTrace ∧
    (run startTrace).scannedItem = none ∧
    (∀ p ∈ [chair095, bottle07], p.cls ∈ plasticItems → p.score ≤ mkRat 7 10) ∧
    ((step (.tick 1 (.ok [chair095, bottle07])) (run startTrace)).scannedItem = none ∧
     (step (.tick 1 (.ok [chair095, bottle07])) (run startTrace)).activeTimers =
       (run startTrace).activeTimers ∧
     (step (.tick 1 (.ok [chair095, bottle07])) (run startTrace)).liveStreams =
       (run startTrace).liveStreams ∧
     (step (.tick 1 (.ok [chair095, bottle07])) (run startTrace)).detectionInterval =
       (run startTrace).detectionInterval) :=
  ⟨by decide, by decide, by decide,
   c2_no_match_below_threshold (run startTrace) 1 [chair095, bottle07]
     (by decide) (by decide) (by decide)⟩

/-- Claim C6.  When camera acquisition is denied, `startDetection` reaches
its catch block (lines 136-138) having done nothing else: the error is
surfaced, no interval is scheduled, no item recorded, and the start button is
still there. -/
theorem c6_camera_denied_idle (s : AppState) (hs : s.scannedItem = none) :
    step (.clickStart false) s = { s with error := some "Camera error" } ∧
    (step (.clickStart false) s).scannedItem = none ∧
    (step (.clickStart false) s).activeTimers = s.activeTimers ∧
    (step (.clickStart false) s).detectionInterval = s.detectionInterval ∧
    startButtonMounted (step (.clickStart false) s) = true := by
  have h1 : step (.clickStart false) s = { s with error := some "Camera error" } := by
    unfold step handle startButtonMounted startDetection normalize videoMounted
    simp [hs]
  refine ⟨h1, ?_, ?_, ?_, ?_⟩ <;> rw [h1] <;> simp [startButtonMounted, hs]

/-- Claim C6 witness: a denied acquisition in the Idle state. -/
theorem c6_camera_denied_idle_witness :
    initState.scannedItem = none ∧
    step (.clickStart false) initState = { initState with error := some "Camera error" } :=
  ⟨rfl, (c6_camera_denied_idle initState rfl).1⟩

/-- Claim C8.  When the prediction list is `l₁ ++ d :: l₂` with nothing in
`l₁` qualifying and `d` qualifying, the recorded label is that of `d` — the first
qualifying entry in model order, whatever `l₂` contains (no further
ranking). -/
theorem c8_first_qualifying_recorded (s : AppState) (i : Nat) (t : Timer)
    (l₁ l₂ : List Pred) (d : Pred)
    (hfind : s.activeTimers.find? (fun u => u.id = i) = some t)
    (hcm : t.capturedModel = true)
    (hs : s.scannedItem = none)
    (h₁ : ∀ p ∈ l₁, qualifies p = false)
    (hd : qualifies d = true) :
    (step (.tick i (.ok (l₁ ++ d :: l₂))) s).scannedItem = some d.cls := by
  have hfq : (l₁ ++ d :: l₂).find? qualifies = some d :=
    find?_append_first qualifies l₁ l₂ d h₁ hd
  unfold step handle
  simp only [hfind, hcm]
  unfold detectObjects videoMounted canvasMounted
  rcases hci : t.capturedInterval with _ | j <;>
    simp [hs, hfq, drawPredictions, stopCamera, normalize, videoMounted] <;>
    rcases hso : s.srcObject with _ | k <;>
    simp [hs]

/-- Claim C8 witness: with a non-qualifying chair first, a bottle at 0.75
second and a qualifying cup third, the recorded label is that of the bottle. -/
theorem c8_first_qualifying_recorded_witness :
    (run startTrace).activeTimers.find? (fun u => u.id = 1) =
      some { id := 1, capturedInterval := none, capturedModel := true } ∧
    ({ id := 1, capturedInterval := none, capturedModel := true } : Timer).capturedModel = true ∧
    (run startTrace).scannedItem = none ∧
    (∀ p ∈ [chair095], qualifies p = false) ∧
    qualifies bottle075 = true ∧
    (step (.tick 1 (.ok ([chair095] ++ bottle075 :: [cup09]))) (run startTrace)).scannedItem =
      some bottle075.cls :=
  ⟨by decide, rfl, by decide, by decide, by decide,
   c8_first_qualifying_recorded (run startTrace) 1
     { id := 1, capturedInterval := none, capturedModel := true }
     [chair095] [cup09] bottle075 (by decide) rfl (by decide) (by decide) (by decide)⟩

/-- Claim C9.  From any Matched state, `resetScanner` clears the recorded
label and the start view returns with a blank overlay (in the results view
the canvas is unmounted, so the `clearRect` at line 208 is skipped, but the
remounted canvas is a fresh, empty element), so `start()` can be called
again. -/
theorem c9_reset_clears (s : AppState) (l : String) (hn : normalize s = s)
    (hl : s.scannedItem = some l) :
    (step .clickReset s).scannedItem = none ∧
    (step .clickReset s).canvasDrawn = [] ∧
    startButtonMounted (step .clickReset s) = true := by
  have hv : videoMounted s = false := by simp [videoMounted, hl]
  have hcanvas : s.canvasDrawn = [] := by
    unfold normalize at hn
    rw [hv] at hn
    simp at hn
    exact (congrArg AppState.canvasDrawn hn).symm
  unfold step handle resetButtonMounted resetScanner canvasMounted normalize videoMounted
  simp [hl, hcanvas, startButtonMounted]

/-- Claim C9 witness: resetting the Matched state of a real session. -/
theorem c9_reset_clears_witness :
    normalize (run detectingTrace) = run detectingTrace ∧
    (run detectingTrace).scannedItem = some "bottle" ∧
    ((step .clickReset (run detectingTrace)).scannedItem = none ∧
     (step .clickReset (run detectingTrace)).canvasDrawn = [] ∧
     startButtonMounted (step .clickReset (run detectingTrace)) = true) :=
  ⟨by decide, by decide,
   c9_reset_clears (run detectingTrace) "bottle" (by decide) (by decide)⟩

/-- `normalize` never changes the scanned item. -/
lemma scannedItem_normalize (s : AppState) : (normalize s).scannedItem = s.scannedItem := by
  unfold normalize
  split <;> rfl

/-- `stopCamera` never changes the scanned item. -/
lemma scannedItem_stopCamera (s : AppState) : (stopCamera s).scannedItem = s.scannedItem := by
  unfold stopCamera
  split <;> rfl

/-- `startDetection` never changes the scanned item. -/
lemma scannedItem_startDetection (ok : Bool) (s : AppState) :
    (startDetection ok s).scannedItem = s.scannedItem := by
  unfold startDetection
  split
  · rfl
  · dsimp only
    split <;> split <;> rfl

/-- A tick either leaves the scanned item as it was, or sets it to the class
of the first qualifying prediction of a successful poll. -/
lemma scannedItem_handle_tick (i : Nat) (res : Except Unit (List Pred)) (s : AppState) :
    (handle (.tick i res) s).scannedItem = s.scannedItem ∨
    ∃ preds d, res = .ok preds ∧ preds.find? qualifies = some d ∧
      (handle (.tick i res) s).scannedItem = some d.cls := by
  simp only [handle]
  split
  case _ t ht =>
    unfold detectObjects
    split
    · exact Or.inl rfl
    · rcases res with e | preds
      · exact Or.inl rfl
      · rcases hfq : preds.find? qualifies with _ | d
        · simp only [hfq]
          exact Or.inl rfl
        · simp only [hfq]
          refine Or.inr ⟨preds, d, rfl, hfq, ?_⟩
          rcases t.capturedInterval with _ | j
          · rw [scannedItem_stopCamera]
          · show (stopCamera _).scannedItem = some d.cls
            rw [scannedItem_stopCamera]
  case _ => exact Or.inl rfl

/-- Lift of `scannedItem_handle_tick` through the re-render commit. -/
lemma scannedItem_step_tick (i : Nat) (res : Except Unit (List Pred)) (s : AppState) :
    (step (.tick i res) s).scannedItem = s.scannedItem ∨
    ∃ preds d, res = .ok preds ∧ preds.find? qualifies = some d ∧
      (step (.tick i res) s).scannedItem = some d.cls := by
  have h := scannedItem_handle_tick i res s
  unfold step
  rw [scannedItem_normalize]
  exact h

/-- Claim C10.  Any step that records a scanned item records the class of a
prediction passing `qualifies`, hence a member of `plasticItems` — exactly
the keys of `PROJECTS` — so the lookup in the results view is never empty. -/
theorem c10_recorded_label_in_projects (e : Event) (s : AppState) (l : String)
    (hs : s.scannedItem = none) (h : (step e s).scannedItem = some l) :
    (l = "bottle" ∨ l = "cup") ∧ PROJECTS l ≠ [] := by
  have hmem : l ∈ plasticItems := by
    cases e with
    | clickStart ok =>
      exfalso
      unfold step at h
      rw [scannedItem_normalize] at h
      simp only [handle] at h
      split at h
      · rw [scannedItem_startDetection, hs] at h
        exact Option.noConfusion h
      · rw [hs] at h
        exact Option.noConfusion h
    | tick i res =>
      rcases scannedItem_step_tick i res s with hcase | ⟨preds, d, hres, hfq, hset⟩
      · rw [h, hs] at hcase
        exact Option.noConfusion hcase
      · have hld : l = d.cls := by
          have := h.symm.trans hset
          exact Option.some.inj this
        have hq := List.find?_some hfq
        unfold qualifies at hq
        rw [Bool.and_eq_true] at hq
        rw [hld]
        exact of_decide_eq_true hq.1
    | clickReset =>
      exfalso
      unfold step at h
      rw [scannedItem_normalize] at h
      simp only [handle] at h
      split at h
      · unfold resetScanner at h
        split at h <;> exact Option.noConfusion h
      · rw [hs] at h
        exact Option.noConfusion h
  have hor : l = "bottle" ∨ l = "cup" := by simpa [plasticItems] using hmem
  refine ⟨hor, ?_⟩
  rcases hor with h1 | h1 <;> subst h1 <;> decide

/-- Claim C10 witness: the label recorded by a real matching poll has a
non-empty project list. -/
theorem c10_recorded_label_in_projects_witness :
    (run startTrace).scannedItem = none ∧
    (step (.tick 1 (.ok [bottle08])) (run startTrace)).scannedItem = some "bottle" ∧
    (("bottle" = "bottle" ∨ "bottle" = "cup") ∧ PROJECTS "bottle" ≠ []) :=
  ⟨by decide, by decide,
   c10_recorded_label_in_projects (.tick 1 (.ok [bottle08])) (run startTrace) "bottle"
     (by decide) (by decide)⟩

end GreenTech
